import Mathlib

/-!
# Verification of the `redirector` bang-resolution service

Shallow embedding of the core of `Adolar0042/redirector` (src/config.rs,
src/main.rs) together with the catalog/resolver operations of the crate
library, modelled from the specification where their source is not part of
the repository snapshot.  Machine integers that matter here (ports, IPv4
octets) stay within range in every code path, so they are modelled as `Nat`.
-/

namespace Redirector

/-- IP addresses as used by the configuration.  The code only ever
constructs the IPv4 address `0.0.0.0` (`IpAddr::from([0, 0, 0, 0])`);
we model the v4 form, which is all the merge logic inspects. -/
inductive IpAddr where
  | v4 (a b c d : Nat)
  deriving DecidableEq, Repr

/-- A bang catalog entry (`Bang` in the crate library; its field set is
fixed by `append_file_config` in src/config.rs and by the data-model
section of the documentation): trigger, URL template, and optional
display metadata. -/
structure Bang where
  trigger : String
  url_template : String
  category : Option String := none
  domain : Option String := none
  relevance : Option Nat := none
  short_name : Option String := none
  subcategory : Option String := none
  deriving DecidableEq, Repr

/-- `DEFAULT_SEARCH` from src/config.rs. -/
def DEFAULT_SEARCH : String := "https://www.qwant.com/?q={}"

/-- `DEFAULT_SEARCH_SUGGESTIONS` from src/config.rs. -/
def DEFAULT_SEARCH_SUGGESTIONS : String := "https://search.brave.com/api/suggest?q={}"

/-- Configuration read from the file (`FileConfig` in src/config.rs). -/
structure FileConfig where
  port : Option Nat := none
  ip : Option IpAddr := none
  bangs_url : Option String := none
  default_search : Option String := none
  search_suggestions : Option String := none
  bangs : Option (List Bang) := none
  deriving DecidableEq, Repr

/-- `FileConfig::default()` (derived `Default` in src/config.rs): all
fields `None`. -/
def FileConfig.default : FileConfig := {}

/-- Configuration read from the CLI (`Config` in src/config.rs).  Note it
has no `bangs` field. -/
structure Config where
  port : Option Nat := none
  ip : Option IpAddr := none
  bangs_url : Option String := none
  default_search : Option String := none
  search_suggestions : Option String := none
  deriving DecidableEq, Repr

/-- Final application configuration (`AppConfig` in src/config.rs). -/
structure AppConfig where
  port : Nat
  ip : IpAddr
  bangs_url : String
  default_search : String
  search_suggestions : String
  bangs : Option (List Bang)
  deriving DecidableEq, Repr

/-- `AppConfig::default()` from src/config.rs. -/
def AppConfig.default : AppConfig where
  port := 3000
  ip := .v4 0 0 0 0
  bangs_url := "https://duckduckgo.com/bang.js"
  default_search := DEFAULT_SEARCH
  search_suggestions := DEFAULT_SEARCH_SUGGESTIONS
  bangs := none

/-- `Config::merge` from src/config.rs: CLI options take precedence over
file values and fall back on `AppConfig` defaults; the overlay comes from
the file only. -/
def Config.merge (self : Config) (file? : Option FileConfig) : AppConfig :=
  let dflt := AppConfig.default
  let file := file?.getD
    { port := none, ip := none, bangs_url := none,
      default_search := none, search_suggestions := none, bangs := none }
  { port := (self.port <|> file.port).getD dflt.port
    ip := (self.ip <|> file.ip).getD dflt.ip
    bangs_url := (self.bangs_url <|> file.bangs_url).getD dflt.bangs_url
    default_search := (self.default_search <|> file.default_search).getD dflt.default_search
    search_suggestions :=
      (self.search_suggestions <|> file.search_suggestions).getD dflt.search_suggestions
    bangs := file.bangs }

/-- `FileConfig::merge` from src/config.rs: CLI options take precedence
over file values, with literal fallbacks. -/
def FileConfig.merge (self : FileConfig) (config : Config) : AppConfig where
  port := (config.port <|> self.port).getD 3000
  ip := (config.ip <|> self.ip).getD (.v4 0 0 0 0)
  bangs_url := (config.bangs_url <|> self.bangs_url).getD "https://duckduckgo.com/bang.js"
  default_search := (config.default_search <|> self.default_search).getD DEFAULT_SEARCH
  search_suggestions :=
    (config.search_suggestions <|> self.search_suggestions).getD DEFAULT_SEARCH_SUGGESTIONS
  bangs := self.bangs

/-! ## Bang catalog cache and merger

The crate keeps the catalog in the global `BANG_CACHE`, a guarded mapping
from trigger to URL template.  We model the mapping as an association list
with at most one binding per trigger. -/

/-- The bang catalog: a finite mapping from trigger to URL template. -/
abbrev Catalog := List (String × String)

/-- Cache lookup: first binding whose key is the trigger. -/
def lookupCatalog : Catalog → String → Option String
  | [], _ => none
  | p :: rest, t => if p.1 = t then some p.2 else lookupCatalog rest t

/-- Cache insertion: add the binding or overwrite the existing binding for
the same trigger, leaving all other bindings unchanged. -/
def insertCatalog : Catalog → String → String → Catalog
  | [], t, url => [(t, url)]
  | p :: rest, t, url =>
      if p.1 = t then (t, url) :: rest else p :: insertCatalog rest t url

/-- The triggers bound in a catalog. -/
def catalogKeys (cat : Catalog) : List String := cat.map Prod.fst

/-- Modelled from the spec: the catalog merger (part of `update_bangs` in
the crate library, which is not under src/).  Starting from a base
catalog, overlay every user-configured entry, overwriting any base entry
with the same trigger. -/
def mergeCatalog (base : Catalog) (overlay : List Bang) : Catalog :=
  overlay.foldl (fun acc b => insertCatalog acc b.trigger b.url_template) base

/-- Modelled from the spec: the catalog built from the fetched remote
entries alone, each inserted in order into an empty mapping. -/
def buildCatalog (remote : List Bang) : Catalog := mergeCatalog [] remote

/-- Typed failures of a refresh attempt (fetch/decode errors of the
catalog fetcher). -/
inductive UpdateError where
  | fetchFailed (msg : String)
  | decodeFailed (msg : String)
  deriving DecidableEq, Repr

/-- Modelled from the spec: `update_bangs` (crate library, not under
src/).  It fetches the remote catalog, merges it with the configured
overlay, and on success returns the replacement mapping for the cache; a
fetch or decode failure is returned as a typed error without touching the
cache.  The network fetch result is passed in as a parameter (the I/O
boundary of the embedding). -/
def update_bangs (config : AppConfig)
    (fetched : Except UpdateError (List Bang)) : Except UpdateError Catalog :=
  match fetched with
  | .ok remote => .ok (mergeCatalog (buildCatalog remote) (config.bangs.getD []))
  | .error e => .error e

/-- The mutable program state reachable from a request handler: the shared
`AppState.config` of src/config.rs together with the global `BANG_CACHE`
of the crate library, folded into one record for the embedding. -/
structure AppState where
  config : AppConfig
  cache : Catalog
  deriving DecidableEq, Repr

/-- Typed failures of `reload_config`. -/
inductive ReloadError where
  | configUnavailable (msg : String)
  | updateFailed (e : UpdateError)
  deriving DecidableEq, Repr

/-- reload_config from src/config.rs.  The result of `get_file_config`
(file I/O) and the fetch result consumed by `update_bangs` are passed as
parameters.  On a file-configuration error it bails with the state
untouched; otherwise it clones the current configuration, replaces only
its `bangs` field from the file, runs `update_bangs` on the clone — bailing
with the state untouched on failure — and only then writes the clone (and
the new cache) back. -/
def reload_config (st : AppState) (fileConfig : Except String FileConfig)
    (fetched : Except UpdateError (List Bang)) :
    Except ReloadError Unit × AppState :=
  match fileConfig with
  | .ok fc =>
      let configClone := { st.config with bangs := fc.bangs }
      match update_bangs configClone fetched with
      | .error e => (.error (.updateFailed e), st)
      | .ok newCache => (.ok (), { config := configClone, cache := newCache })
  | .error e => (.error (.configUnavailable e), st)

/-! ## Resolver (modelled from the spec: `resolve` lives in the crate
library, which is not under src/) -/

/-- Characters that percent-encoding leaves unescaped (the RFC 3986
unreserved set). -/
def isUnreservedChar (c : Char) : Bool :=
  c.isAlphanum || c == '-' || c == '_' || c == '.' || c == '~'

/-- Uppercase hexadecimal digit for a value below 16. -/
def hexDigitChar (n : Nat) : Char :=
  if n < 10 then Char.ofNat (48 + n) else Char.ofNat (65 + (n - 10))

/-- UTF-8 encoding of one character, as byte values. -/
def charUtf8Bytes (c : Char) : List Nat :=
  let n := c.toNat
  if n < 128 then [n]
  else if n < 2048 then [192 + n / 64, 128 + n % 64]
  else if n < 65536 then [224 + n / 4096, 128 + (n / 64) % 64, 128 + n % 64]
  else [240 + n / 262144, 128 + (n / 4096) % 64, 128 + (n / 64) % 64, 128 + n % 64]

/-- Percent-escape of one byte. -/
def percentEncodeByte (b : Nat) : String :=
  String.mk ['%', hexDigitChar (b / 16), hexDigitChar (b % 16)]

/-- Percent-encoding of one character: unreserved characters pass through,
everything else is escaped byte by byte. -/
def percentEncodeChar (c : Char) : String :=
  if isUnreservedChar c then String.mk [c] else
  String.join ((charUtf8Bytes c).map percentEncodeByte)

/-- Modelled from the spec: percent-encoding of the query remainder;
escapes every reserved URL character. -/
def percentEncode (s : String) : String :=
  String.join (s.toList.map percentEncodeChar)

/-- Split a character list at spaces, keeping empty pieces (the semantics
of splitting a string on a single-space separator). -/
def splitWordsAux : List Char → List Char → List String
  | [], acc => [String.mk acc.reverse]
  | c :: cs, acc =>
      if c = ' ' then String.mk acc.reverse :: splitWordsAux cs []
      else splitWordsAux cs (c :: acc)

/-- The whitespace-separated tokens of the query. -/
def splitWords (s : String) : List String := splitWordsAux s.toList []

/-- The body of a bang token: the rest of the word when it begins with
the bang marker. -/
def bangBody? (w : String) : Option String :=
  match w.toList with
  | c :: rest => if c = '!' then some (String.mk rest) else none
  | [] => none

/-- Modelled from the spec: scan the whitespace-separated tokens of the
query for the first one beginning with the bang marker; return its body
(the trigger) and the remaining tokens in order. -/
def findBangToken : List String → Option (String × List String)
  | [] => none
  | w :: ws =>
      match bangBody? w with
      | some body => some (body, ws)
      | none =>
          match findBangToken ws with
          | some (t, rest) => some (t, w :: rest)
          | none => none

/-- Rejoin the remaining tokens with single spaces. -/
def joinWords : List String → String
  | [] => ""
  | [w] => w
  | w :: ws => w ++ " " ++ joinWords ws

/-- Replace every occurrence of the two-character substitution marker
(codepoints 123 and 125) by the argument. -/
def replaceMarkerAux (arg : List Char) : List Char → List Char
  | [] => []
  | [c] => [c]
  | c :: d :: rest =>
      if c.toNat = 123 ∧ d.toNat = 125 then arg ++ replaceMarkerAux arg rest
      else c :: replaceMarkerAux arg (d :: rest)

/-- Substitute the argument at the template's substitution marker. -/
def substTemplate (tmpl arg : String) : String :=
  String.mk (replaceMarkerAux arg.toList tmpl.toList)

/-- Modelled from the spec: `resolve` (crate library, not under src/).
Extract the first bang token; on a cache hit substitute the
percent-encoded remainder into the entry's template; on an unknown
trigger or no trigger at all, substitute the percent-encoded original
query into the default-search template.  The cache is passed explicitly
(the crate reads the global `BANG_CACHE`). -/
def resolve (config : AppConfig) (cache : Catalog) (query : String) : String :=
  match findBangToken (splitWords query) with
  | some (trigger, rest) =>
      match lookupCatalog cache trigger with
      | some tmpl => substTemplate tmpl (percentEncode (joinWords rest))
      | none => substTemplate config.default_search (percentEncode query)
  | none => substTemplate config.default_search (percentEncode query)

/-- handler from src/main.rs: with no `q` parameter redirect to the
catalog-listing page `/bangs`; with a query redirect to the resolver's
answer. -/
def handler (query? : Option String) (app_config : AppConfig)
    (cache : Catalog) : String :=
  match query? with
  | none => "/bangs"
  | some query => resolve app_config cache query

/-! ## Appending a bang to the configuration file (src/config.rs) -/

/-- What `append_file_config` does to the file system.  Its Rust return
type is the unit type, so none of these outcomes is reported back to the
caller. -/
inductive AppendOutcome where
  | written (newContents : String)
  | writeFailed
  | readFailed
  | fileMissing
  deriving DecidableEq, Repr

/-- The TOML block `append_file_config` appends for one bang: a
`[[bangs]]` header, the trigger and template, then each present metadata
field, then a newline. -/
def appendedBangToml (contents : String) (bang : Bang) : String :=
  let s := contents ++ "\n[[bangs]]"
    ++ "\ntrigger = \"" ++ bang.trigger ++ "\""
    ++ "\nurl_template = \"" ++ bang.url_template ++ "\""
  let s := match bang.category with
    | some c => s ++ "\ncategory = \"" ++ c ++ "\""
    | none => s
  let s := match bang.domain with
    | some d => s ++ "\ndomain = \"" ++ d ++ "\""
    | none => s
  let s := match bang.relevance with
    | some r => s ++ "\nrelevance = " ++ toString r
    | none => s
  let s := match bang.short_name with
    | some n => s ++ "\nshort_name = \"" ++ n ++ "\""
    | none => s
  let s := match bang.subcategory with
    | some sc => s ++ "\nsubcategory = \"" ++ sc ++ "\""
    | none => s
  s ++ "\n"

/-- append_file_config from src/config.rs.  File-system interaction is
passed in: whether the configuration file exists, the result of reading
it, and whether the final write succeeds.  The first component is the
file-system effect; the second is the value returned to the caller, which
in the source is always plain unit — the function has no error channel. -/
def append_file_config (bang : Bang) (fileExists : Bool)
    (readResult : Except String String) (writeOk : Bool) :
    AppendOutcome × Unit :=
  if fileExists then
    match readResult with
    | .ok contents =>
        if writeOk then (.written (appendedBangToml contents bang), ())
        else (.writeFailed, ())
    | .error _ => (.readFailed, ())
  else (.fileMissing, ())

/-! ## The periodic refresh loop (src/main.rs) -/

/-- How an iteration of the update loop ends. -/
inductive LoopControl where
  | continued
  | stopped
  | panicked
  deriving DecidableEq, Repr

/-- One iteration body of periodic_update from src/main.rs, applied to
that tick's `update_bangs` result: an error is logged (first component)
and in either case the body falls through to the next tick. -/
def periodic_update_body (result : Except UpdateError Catalog) :
    Bool × LoopControl :=
  match result with
  | .ok _ => (false, .continued)
  | .error _ => (true, .continued)

/-- Delay the tokio interval imposes before the next tick: the fixed
24-hour period, whatever the iteration's outcome was. -/
def periodicTickDelay (_result : Except UpdateError Catalog) : Nat := 24 * 60 * 60

/-- Time (in seconds from task start) of the n-th tick of
periodic_update, given each tick's outcome; the first tick fires
immediately. -/
def periodicTickTime (results : Nat → Except UpdateError Catalog) : Nat → Nat
  | 0 => 0
  | n + 1 => periodicTickTime results n + periodicTickDelay (results n)

/-- An outcome stream in which every refresh attempt fails. -/
def failingResults : Nat → Except UpdateError Catalog :=
  fun _ => .error (.fetchFailed "upstream outage")

/-! ## Startup ordering of the serve path (src/main.rs) -/

/-- Observable events of the serve path of `main` and of the spawned
updater task's first (immediate) tick. -/
inductive Ev where
  | spawnUpdater
  | refreshStart
  | refreshDone (ok : Bool)
  | bindListener
  | serveRequest
  deriving DecidableEq, Repr

/-- The serve branch of `main` in src/main.rs, in program order: spawn
periodic_update, bind the listener, serve a request. -/
def mainServeThread : List Ev := [.spawnUpdater, .bindListener, .serveRequest]

/-- The spawned periodic_update task up to the end of its first tick: the
startup refresh runs and completes with outcome `ok`. -/
def updaterThread (ok : Bool) : List Ev := [.refreshStart, .refreshDone ok]

/-- Event traces obtained by interleaving two threads, preserving each
thread's program order. -/
inductive Interleaving : List Ev → List Ev → List Ev → Prop where
  | nil : Interleaving [] [] []
  | left {x xs ys t} : Interleaving xs ys t → Interleaving (x :: xs) ys (x :: t)
  | right {y xs ys t} : Interleaving xs ys t → Interleaving xs (y :: ys) (y :: t)

/-- Valid executions of the serve path: an interleaving of the main
thread and the spawned updater in which the updater's first event comes
after the spawn that created it. -/
def ServeTrace (ok : Bool) (t : List Ev) : Prop :=
  Interleaving mainServeThread (updaterThread ok) t
  ∧ List.Sublist [Ev.spawnUpdater, Ev.refreshStart] t

/-- A valid execution in which a request is served before the startup
refresh has completed. -/
def startupRaceTrace : List Ev :=
  [.spawnUpdater, .bindListener, .serveRequest, .refreshStart, .refreshDone true]

/-- A valid execution in which the startup refresh fails before any
request is served. -/
def seqServeTrace : List Ev :=
  [.spawnUpdater, .refreshStart, .refreshDone false, .bindListener, .serveRequest]

/-! ## Sample values for concrete instantiations -/

/-- A concrete application configuration. -/
def sampleConfig : AppConfig where
  port := 8080
  ip := .v4 127 0 0 1
  bangs_url := "https://duckduckgo.com/bang.js"
  default_search := "https://example.com/s?q={}"
  search_suggestions := DEFAULT_SEARCH_SUGGESTIONS
  bangs := some [{ trigger := "gh", url_template := "https://github.com/search?q={}" }]

/-- A concrete application state. -/
def sampleState : AppState where
  config := sampleConfig
  cache := [("gh", "https://github.com/search?q={}")]

/-- A concrete bang entry. -/
def sampleBang : Bang where
  trigger := "yt"
  url_template := "https://youtube.com/results?search_query={}"

/-! ## Catalog lemmas -/

theorem lookupCatalog_insertCatalog_self (cat : Catalog) (t u : String) :
    lookupCatalog (insertCatalog cat t u) t = some u := by
  induction cat with
  | nil => simp [insertCatalog, lookupCatalog]
  | cons p rest ih =>
      by_cases h : p.1 = t
      · simp [insertCatalog, h, lookupCatalog]
      · simp [insertCatalog, h, lookupCatalog, ih]

theorem lookupCatalog_insertCatalog_ne (cat : Catalog) (t u s : String)
    (h : s ≠ t) :
    lookupCatalog (insertCatalog cat t u) s = lookupCatalog cat s := by
  have hts : ¬ (t = s) := fun hh => h hh.symm
  induction cat with
  | nil => simp [insertCatalog, lookupCatalog, hts]
  | cons p rest ih =>
      by_cases hp : p.1 = t
      · have hps : ¬ (p.1 = s) := by rw [hp]; exact hts
        simp [insertCatalog, hp, lookupCatalog, hts, hps]
      · simp [insertCatalog, hp, lookupCatalog, ih]

theorem catalogKeys_cons (p : String × String) (cat : Catalog) :
    catalogKeys (p :: cat) = p.1 :: catalogKeys cat := rfl

theorem catalogKeys_insertCatalog (cat : Catalog) (t u : String) :
    catalogKeys (insertCatalog cat t u)
      = if t ∈ catalogKeys cat then catalogKeys cat
        else catalogKeys cat ++ [t] := by
  induction cat with
  | nil => simp [insertCatalog, catalogKeys]
  | cons p rest ih =>
      by_cases hp : p.1 = t
      · have e1 : insertCatalog (p :: rest) t u = (t, u) :: rest := by
          simp [insertCatalog, hp]
        have hmem : t ∈ p.1 :: catalogKeys rest := List.mem_cons.mpr (Or.inl hp.symm)
        rw [e1]
        simp only [catalogKeys_cons]
        rw [if_pos hmem, hp]
      · have e1 : insertCatalog (p :: rest) t u = p :: insertCatalog rest t u := by
          simp [insertCatalog, hp]
        rw [e1]
        simp only [catalogKeys_cons]
        rw [ih]
        by_cases hr : t ∈ catalogKeys rest
        · rw [if_pos hr, if_pos (List.mem_cons.mpr (Or.inr hr))]
        · have hn : t ∉ p.1 :: catalogKeys rest := by
            intro hmem
            rcases List.mem_cons.mp hmem with h1 | h2
            · exact hp h1.symm
            · exact hr h2
          rw [if_neg hr, if_neg hn]
          rfl

theorem nodup_catalogKeys_insertCatalog (cat : Catalog) (t u : String)
    (h : (catalogKeys cat).Nodup) :
    (catalogKeys (insertCatalog cat t u)).Nodup := by
  rw [catalogKeys_insertCatalog]
  by_cases hm : t ∈ catalogKeys cat
  · rwa [if_pos hm]
  · rw [if_neg hm]
    exact h.append (List.nodup_singleton t)
      (fun a ha hb => hm ((List.mem_singleton.mp hb) ▸ ha))

theorem mergeCatalog_cons (base : Catalog) (b : Bang) (ov : List Bang) :
    mergeCatalog base (b :: ov)
      = mergeCatalog (insertCatalog base b.trigger b.url_template) ov := rfl

theorem lookupCatalog_mergeCatalog_not_mem (base : Catalog) (ov : List Bang)
    (t : String) (h : t ∉ ov.map Bang.trigger) :
    lookupCatalog (mergeCatalog base ov) t = lookupCatalog base t := by
  induction ov generalizing base with
  | nil => rfl
  | cons b tl ih =>
      simp only [List.map_cons, List.mem_cons, not_or] at h
      rw [mergeCatalog_cons, ih _ h.2,
        lookupCatalog_insertCatalog_ne _ _ _ _ h.1]

theorem lookupCatalog_mergeCatalog_mem (base : Catalog) (ov : List Bang)
    (b : Bang) (hb : b ∈ ov) (hnd : (ov.map Bang.trigger).Nodup) :
    lookupCatalog (mergeCatalog base ov) b.trigger = some b.url_template := by
  induction ov generalizing base with
  | nil => cases hb
  | cons hd tl ih =>
      simp only [List.map_cons, List.nodup_cons] at hnd
      rcases List.mem_cons.mp hb with hhd | htl
      · subst hhd
        rw [mergeCatalog_cons,
          lookupCatalog_mergeCatalog_not_mem _ _ _ hnd.1,
          lookupCatalog_insertCatalog_self]
      · rw [mergeCatalog_cons]
        exact ih _ htl hnd.2

theorem nodup_catalogKeys_mergeCatalog (base : Catalog) (ov : List Bang)
    (h : (catalogKeys base).Nodup) :
    (catalogKeys (mergeCatalog base ov)).Nodup := by
  induction ov generalizing base with
  | nil => exact h
  | cons b tl ih =>
      rw [mergeCatalog_cons]
      exact ih _ (nodup_catalogKeys_insertCatalog _ _ _ h)

theorem nodup_catalogKeys_buildCatalog (remote : List Bang) :
    (catalogKeys (buildCatalog remote)).Nodup :=
  nodup_catalogKeys_mergeCatalog _ _ (by simp [catalogKeys])

/-- C2: for every remote entry and every user-configured entry sharing a
trigger, the merged catalog maps that trigger to the configured entry's
url_template, and each trigger is bound at most once in the merged
catalog. -/
theorem merged_catalog_precedence_and_unique (remote overlay : List Bang)
    (r b : Bang) (_hr : r ∈ remote) (hb : b ∈ overlay)
    (_ht : r.trigger = b.trigger)
    (hnd : (overlay.map Bang.trigger).Nodup) :
    lookupCatalog (mergeCatalog (buildCatalog remote) overlay) b.trigger
      = some b.url_template
    ∧ (catalogKeys (mergeCatalog (buildCatalog remote) overlay)).Nodup :=
  ⟨lookupCatalog_mergeCatalog_mem _ _ _ hb hnd,
   nodup_catalogKeys_mergeCatalog _ _ (nodup_catalogKeys_buildCatalog remote)⟩

/-- Witness for C2 at a concrete collision. -/
theorem merged_catalog_precedence_and_unique_witness :
    lookupCatalog
      (mergeCatalog
        (buildCatalog [{ trigger := "gh", url_template := "https://github.com/{}" }])
        [{ trigger := "gh", url_template := "https://github.com/search?q={}" }])
      "gh" = some "https://github.com/search?q={}"
    ∧ (catalogKeys
        (mergeCatalog
          (buildCatalog [{ trigger := "gh", url_template := "https://github.com/{}" }])
          [{ trigger := "gh", url_template := "https://github.com/search?q={}" }])).Nodup :=
  merged_catalog_precedence_and_unique
    [{ trigger := "gh", url_template := "https://github.com/{}" }]
    [{ trigger := "gh", url_template := "https://github.com/search?q={}" }]
    { trigger := "gh", url_template := "https://github.com/{}" }
    { trigger := "gh", url_template := "https://github.com/search?q={}" }
    (by simp) (by simp) rfl (by simp)

/-- C1: if reload_config fails — unavailable/unparsable file configuration
or a failing bang update — the configuration and the cache are unchanged
and the failure is returned; if it succeeds, the cache is replaced by the
fetched-and-merged catalog and the configuration's overlay list is
replaced by the file's. -/
theorem reload_config_atomic (st : AppState) (fcr : Except String FileConfig)
    (fr : Except UpdateError (List Bang)) :
    (∀ e, (reload_config st fcr fr).1 = .error e → (reload_config st fcr fr).2 = st)
    ∧ (∀ msg, fcr = .error msg →
        (reload_config st fcr fr).1 = .error (.configUnavailable msg))
    ∧ (∀ fc e, fcr = .ok fc → fr = .error e →
        (reload_config st fcr fr).1 = .error (.updateFailed e))
    ∧ ((reload_config st fcr fr).1 = .ok () →
        ∃ fc remote, fcr = .ok fc ∧ fr = .ok remote
          ∧ (reload_config st fcr fr).2.config.bangs = fc.bangs
          ∧ (reload_config st fcr fr).2.cache
              = mergeCatalog (buildCatalog remote) (fc.bangs.getD [])) := by
  cases fcr with
  | error e =>
      refine ⟨fun _ _ => rfl, fun msg hm => ?_, fun fc e' hfc _ => ?_, fun h => ?_⟩
      · cases hm; rfl
      · cases hfc
      · simp [reload_config] at h
  | ok fc =>
      cases fr with
      | error e' =>
          refine ⟨fun _ _ => rfl, fun msg hm => ?_, fun fc' e'' hfc hfr => ?_, fun h => ?_⟩
          · cases hm
          · cases hfc; cases hfr; rfl
          · simp [reload_config, update_bangs] at h
      | ok remote =>
          refine ⟨fun e h => ?_, fun msg hm => ?_, fun fc' e'' _ hfr => ?_, fun _ => ?_⟩
          · simp [reload_config, update_bangs] at h
          · cases hm
          · cases hfr
          · exact ⟨fc, remote, rfl, rfl, rfl, rfl⟩

/-- Witness for C1 at a concrete failing reload. -/
theorem reload_config_atomic_witness :
    (reload_config sampleState (Except.error "Configuration file not found")
        (Except.ok [])).2 = sampleState :=
  (reload_config_atomic sampleState (Except.error "Configuration file not found")
      (Except.ok [])).1
    (.configUnavailable "Configuration file not found")
    ((reload_config_atomic sampleState (Except.error "Configuration file not found")
        (Except.ok [])).2.1 "Configuration file not found" rfl)

/-- C4: a successful reload replaces only the overlay; every other
configuration field is preserved. -/
theorem reload_config_frame (st : AppState) (fcr : Except String FileConfig)
    (fr : Except UpdateError (List Bang))
    (h : (reload_config st fcr fr).1 = .ok ()) :
    (reload_config st fcr fr).2.config.port = st.config.port
    ∧ (reload_config st fcr fr).2.config.ip = st.config.ip
    ∧ (reload_config st fcr fr).2.config.bangs_url = st.config.bangs_url
    ∧ (reload_config st fcr fr).2.config.default_search = st.config.default_search
    ∧ (reload_config st fcr fr).2.config.search_suggestions
        = st.config.search_suggestions := by
  cases fcr with
  | error e => simp [reload_config] at h
  | ok fc =>
      cases fr with
      | error e' => simp [reload_config, update_bangs] at h
      | ok remote => exact ⟨rfl, rfl, rfl, rfl, rfl⟩

/-- Witness for C4 at a concrete successful reload. -/
theorem reload_config_frame_witness :
    (reload_config sampleState (Except.ok {}) (Except.ok [])).2.config.port
        = sampleState.config.port
    ∧ (reload_config sampleState (Except.ok {}) (Except.ok [])).2.config.ip
        = sampleState.config.ip
    ∧ (reload_config sampleState (Except.ok {}) (Except.ok [])).2.config.bangs_url
        = sampleState.config.bangs_url
    ∧ (reload_config sampleState (Except.ok {}) (Except.ok [])).2.config.default_search
        = sampleState.config.default_search
    ∧ (reload_config sampleState (Except.ok {}) (Except.ok [])).2.config.search_suggestions
        = sampleState.config.search_suggestions :=
  reload_config_frame sampleState (Except.ok {}) (Except.ok []) rfl

/-- C9: the two merge implementations agree — CLI precedence, identical
defaults, overlay from the file only. -/
theorem merge_implementations_agree (c : Config) (f : Option FileConfig) :
    Config.merge c f = FileConfig.merge (f.getD FileConfig.default) c
    ∧ Config.merge {} none =
        { port := 3000, ip := .v4 0 0 0 0,
          bangs_url := "https://duckduckgo.com/bang.js",
          default_search := DEFAULT_SEARCH,
          search_suggestions := DEFAULT_SEARCH_SUGGESTIONS, bangs := none }
    ∧ (Config.merge c f).bangs = (f.getD FileConfig.default).bangs := by
  cases f <;> exact ⟨rfl, rfl, rfl⟩

/-- C10: the merged configuration's overlay comes from the file alone:
it equals the file's bangs field, is none without a file, and is
independent of the CLI configuration. -/
theorem merge_overlay_from_file_only (c c' : Config) (f : Option FileConfig)
    (fc : FileConfig) :
    (Config.merge c f).bangs = (match f with | some g => g.bangs | none => none)
    ∧ (FileConfig.merge fc c).bangs = fc.bangs
    ∧ (Config.merge c f).bangs = (Config.merge c' f).bangs := by
  cases f <;> exact ⟨rfl, rfl, rfl⟩

/-! ## Resolver theorems -/

/-- C8: the resolver is total — every call returns a substitution of some
template — and pure — equal inputs give equal URLs; an unknown trigger
degrades to the default-search fallback on the original query. -/
theorem resolve_total_and_pure (config : AppConfig) (cache : Catalog) (q : String) :
    (∃ tmpl arg, resolve config cache q = substTemplate tmpl arg)
    ∧ (∀ config' cache' q', config' = config → cache' = cache → q' = q →
        resolve config' cache' q' = resolve config cache q)
    ∧ (∀ trigger rest, findBangToken (splitWords q) = some (trigger, rest) →
        lookupCatalog cache trigger = none →
        resolve config cache q
          = substTemplate config.default_search (percentEncode q)) := by
  refine ⟨?_, ?_, ?_⟩
  · rcases hf : findBangToken (splitWords q) with _ | ⟨t, rest⟩
    · exact ⟨config.default_search, percentEncode q, by simp [resolve, hf]⟩
    · rcases hl : lookupCatalog cache t with _ | tmpl
      · exact ⟨config.default_search, percentEncode q, by simp [resolve, hf, hl]⟩
      · exact ⟨tmpl, percentEncode (joinWords rest), by simp [resolve, hf, hl]⟩
  · intro config' cache' q' hc hk hq
    rw [hc, hk, hq]
  · intro t rest hf hl
    simp [resolve, hf, hl]

/-- Witness for C8 at a concrete unknown-trigger query. -/
theorem resolve_total_and_pure_witness :
    resolve sampleConfig [] "!zzz hello"
      = substTemplate sampleConfig.default_search (percentEncode "!zzz hello") :=
  (resolve_total_and_pure sampleConfig [] "!zzz hello").2.2 "zzz" ["hello"] rfl rfl

/-- Resolution-correctness vector: a known trigger substitutes the
encoded remainder into the entry's template. -/
theorem resolve_hit_vector :
    resolve sampleConfig [("gh", "https://github.com/search?q={}")] "!gh rustlang"
      = "https://github.com/search?q=rustlang" := by decide

/-- Unknown-trigger vector: the whole original query reaches the default
search, percent-encoded. -/
theorem resolve_unknown_trigger_vector :
    resolve sampleConfig [] "!zzz hello"
      = "https://example.com/s?q=%21zzz%20hello" := by decide

/-- No-trigger vector: the default-search template is used on the
percent-encoded query. -/
theorem resolve_no_trigger_vector :
    resolve sampleConfig [] "plain query"
      = "https://example.com/s?q=plain%20query" := by decide

/-- C7: the request handler redirects to the catalog-listing page when no
query parameter is present — independently of the catalog, so the
resolver is not consulted — and to the resolver's answer otherwise. -/
theorem handler_dispatch (config : AppConfig) (cache cache' : Catalog) :
    handler none config cache = "/bangs"
    ∧ handler none config cache = handler none config cache'
    ∧ ∀ q, handler (some q) config cache = resolve config cache q :=
  ⟨rfl, rfl, fun _ => rfl⟩

/-! ## Periodic refresh theorems -/

theorem periodicTickTime_eq (results : Nat → Except UpdateError Catalog)
    (n : Nat) : periodicTickTime results n = n * (24 * 60 * 60) := by
  induction n with
  | zero => rfl
  | succ m ih =>
      simp only [periodicTickTime, periodicTickDelay, ih]
      ring

/-- C5: the loop attempts a refresh at every tick of a fixed 24-hour
schedule that does not depend on outcomes (no backoff, no early retry),
logs every failure, and always continues — a failure never stops the
loop. -/
theorem periodic_update_schedule (results : Nat → Except UpdateError Catalog)
    (n : Nat) :
    periodicTickTime results n = n * (24 * 60 * 60)
    ∧ (periodic_update_body (results n)).2 = .continued
    ∧ (∀ e, results n = .error e → (periodic_update_body (results n)).1 = true)
    ∧ (∀ results' : Nat → Except UpdateError Catalog,
        periodicTickTime results' n = periodicTickTime results n) := by
  refine ⟨periodicTickTime_eq results n, ?_, ?_, ?_⟩
  · cases results n <;> rfl
  · intro e h
    rw [h]
    rfl
  · intro results'
    rw [periodicTickTime_eq results' n, periodicTickTime_eq results n]

/-- Witness for C5 on an everywhere-failing outcome stream at the third
tick. -/
theorem periodic_update_schedule_witness :
    (periodic_update_body (failingResults 2)).1 = true
    ∧ periodicTickTime failingResults 2 = 2 * (24 * 60 * 60) :=
  ⟨(periodic_update_schedule failingResults 2).2.2.1
     (.fetchFailed "upstream outage") rfl,
   (periodic_update_schedule failingResults 2).1⟩

/-! ## Startup ordering theorems -/

theorem interleaving_count {l₁ l₂ t : List Ev} (h : Interleaving l₁ l₂ t)
    (x : Ev) : t.count x = l₁.count x + l₂.count x := by
  induction h with
  | nil => rfl
  | left _ ih => simp only [List.count_cons, ih]; omega
  | right _ ih => simp only [List.count_cons, ih]; omega

theorem interleaving_sublist_left {l₁ l₂ t : List Ev}
    (h : Interleaving l₁ l₂ t) : List.Sublist l₁ t := by
  induction h with
  | nil => exact List.Sublist.refl []
  | left _ ih => exact ih.cons₂ _
  | right _ ih => exact ih.cons _

/-- C6 counterexample: a valid execution of the serve path in which a
request is served strictly before the startup refresh completes — the
spawned first tick is not awaited before serving begins. -/
theorem startup_refresh_race_counterexample :
    ServeTrace true startupRaceTrace
    ∧ List.indexOf Ev.serveRequest startupRaceTrace
        < List.indexOf (Ev.refreshDone true) startupRaceTrace := by
  refine ⟨⟨?_, ?_⟩, ?_⟩
  · exact .left (.left (.left (.right (.right .nil))))
  · exact .cons₂ _ (.cons _ (.cons _ (.cons₂ _ (List.nil_sublist _))))
  · decide

/-- C6 amended: in every valid execution of the serve path the startup
refresh is started exactly once, the spawn that initiates it precedes the
served request, and a request is served whatever the refresh outcome —
but completion of the refresh is not ordered before serving. -/
theorem startup_refresh_spawned_and_tolerant (ok : Bool) (t : List Ev)
    (h : ServeTrace ok t) :
    t.count Ev.refreshStart = 1
    ∧ Ev.serveRequest ∈ t
    ∧ List.Sublist [Ev.spawnUpdater, Ev.serveRequest] t := by
  obtain ⟨hi, -⟩ := h
  refine ⟨?_, ?_, ?_⟩
  · have h1 : mainServeThread.count Ev.refreshStart = 0 := rfl
    have h2 : (updaterThread ok).count Ev.refreshStart = 1 := by
      cases ok <;> rfl
    rw [interleaving_count hi, h1, h2]
  · exact (interleaving_sublist_left hi).subset
      (by simp [mainServeThread])
  · exact List.Sublist.trans
      (List.Sublist.cons₂ _ (List.Sublist.cons _ (List.Sublist.refl _)))
      (interleaving_sublist_left hi)

/-- Witness for the C6 amended theorem on a concrete failing-refresh
execution. -/
theorem startup_refresh_spawned_and_tolerant_witness :
    seqServeTrace.count Ev.refreshStart = 1
    ∧ Ev.serveRequest ∈ seqServeTrace
    ∧ List.Sublist [Ev.spawnUpdater, Ev.serveRequest] seqServeTrace :=
  startup_refresh_spawned_and_tolerant false seqServeTrace
    ⟨.left (.right (.right (.left (.left .nil)))),
     .cons₂ _ (.cons₂ _ (List.nil_sublist _))⟩

/-! ## Bang-append theorems -/

/-- C3 counterexample: with no configuration file present,
append_file_config performs no write and hands plain unit back — the new
entry is dropped and no failure reaches the caller. -/
theorem append_file_config_silent_drop :
    append_file_config sampleBang false (Except.error "No such file") true
      = (AppendOutcome.fileMissing, ()) := rfl

/-- C3 amended: insertion with no configuration file silently drops the
entry (a log-only outcome, unit returned, no error channel); with a
readable and writable file the entry is appended as a TOML block. -/
theorem append_file_config_behavior (bang : Bang)
    (readResult : Except String String) (writeOk : Bool) :
    append_file_config bang false readResult writeOk
        = (AppendOutcome.fileMissing, ())
    ∧ (∀ contents, writeOk = true →
        append_file_config bang true (Except.ok contents) writeOk
          = (AppendOutcome.written (appendedBangToml contents bang), ())) := by
  refine ⟨rfl, ?_⟩
  intro contents hw
  rw [hw]
  rfl

/-- Witness for the C3 amended theorem at a concrete append. -/
theorem append_file_config_behavior_witness :
    append_file_config sampleBang true (Except.ok "port = 3000") true
      = (AppendOutcome.written (appendedBangToml "port = 3000" sampleBang), ()) :=
  (append_file_config_behavior sampleBang (Except.ok "port = 3000") true).2
    "port = 3000" rfl

end Redirector
